import Mathlib

/-!
Verification development for the TikTok metadata scraper (`scraper.py`).

The scraper's core is pure string/JSON processing, which we embed shallowly:

* Python runtime values reachable from `json.loads` (plus `None`, `bool`,
  `int`, `float`, `str`, `list`, `dict`) become the inductive `PyValue`;
  Python `dict`s become insertion-ordered association lists (duplicate JSON
  keys are resolved the way CPython resolves them: the value is updated in
  place, the key keeps its first position).
* Fallible Python code becomes `Option`/`Except`: an extractor that can let
  an exception escape returns `Except Unit _`, with `.error ()` standing for
  an uncaught exception (for this code, `AttributeError` from calling `.get`
  on a non-dict).
* Machine-level `float` behaviour is modelled exactly where the scraper uses
  it: the only operation applied to a float is `int(f)` (truncation toward
  zero, raising on `nan`/`inf`), so a float is a `PyFloat`: an exact rational
  or one of `nan`, `inf`, `-inf`.  The binary rounding of doubles is not
  modelled; no claim depends on it.
* Unicode-dependent predicates (`str.isdigit`, `\w`, `str.lower`,
  `str.strip`) are modelled on the character repertoire the claims exercise
  (ASCII plus the Latin ranges named in the hashtag regex); the modelled
  fragment agrees with CPython on that repertoire, as noted at each def.
-/

namespace Scraper

/-- A Python float as used by the scraper.  `scraper.py` only ever applies
`int(·)` and truthiness tests to floats, so an exact rational (the value of
any finite double) plus the three non-finite cases is a faithful carrier. -/
inductive PyFloat where
  | finite (q : ℚ)
  | nan
  | inf
  | neginf
deriving DecidableEq

/-- Python values reachable in the scraper: `None`, `bool`, `int`, `float`,
`str`, `list`, and insertion-ordered `dict` with string keys (the only dict
keys `json.loads` produces). -/
inductive PyValue where
  | none
  | bool (b : Bool)
  | int (n : Int)
  | float (f : PyFloat)
  | str (s : String)
  | list (xs : List PyValue)
  | dict (entries : List (String × PyValue))

/-- Python truthiness (`bool(v)`) for the values in our model. -/
def pyTruthy : PyValue → Bool
  | .none => false
  | .bool b => b
  | .int n => n != 0
  | .float (.finite q) => q != 0
  | .float _ => true
  | .str s => s != ""
  | .list [] => false
  | .list (_ :: _) => true
  | .dict [] => false
  | .dict (_ :: _) => true

/-- `dict.get(k, d)` lookup on the association-list representation: first
matching key (keys are unique after `dictInsert` normalisation). -/
def lookupD (entries : List (String × PyValue)) (k : String) (d : PyValue) : PyValue :=
  match entries.find? (fun p => p.1 == k) with
  | some p => p.2
  | Option.none => d

/-- `v.get(k)` (default `None`): only dicts have a `.get` attribute; on any
other value the call raises `AttributeError`, modelled as `.error ()`. -/
def pyGet (v : PyValue) (k : String) : Except Unit PyValue :=
  match v with
  | .dict entries => .ok (lookupD entries k .none)
  | _ => .error ()

/-- `v.get(k, d)` with an explicit default; raises on non-dicts like `pyGet`. -/
def pyGetD (v : PyValue) (k : String) (d : PyValue) : Except Unit PyValue :=
  match v with
  | .dict entries => .ok (lookupD entries k d)
  | _ => .error ()

/-- `int(q)` on a rational: truncation toward zero (CPython `int(float)`). -/
def pyTrunc (q : ℚ) : Int := Int.tdiv q.num (q.den : Int)

/-- Whitespace for `str.strip()`: the six ASCII whitespace characters CPython
strips.  (CPython also strips non-ASCII Unicode whitespace; no claim uses
such characters.) -/
def pyIsSpace (c : Char) : Bool :=
  c == ' ' || c == '\t' || c == '\n' || c == '\r' || c == '\x0b' || c == '\x0c'

/-- `str.strip()` on a character list: drop whitespace at both ends. -/
def stripChars (l : List Char) : List Char :=
  ((l.dropWhile pyIsSpace).reverse.dropWhile pyIsSpace).reverse

/-- `value.replace(",", "").strip()` from `_parse_int`'s string branch. -/
def cleanedDigits (s : String) : List Char :=
  stripChars (s.data.filter (fun c => c != ','))

/-- Numeric value of an ASCII digit string (what `int(v)` returns once
`v.isdigit()` has passed). -/
def digitsToNat (l : List Char) : Nat :=
  l.foldl (fun acc c => 10 * acc + (c.toNat - 48)) 0

/-- `_parse_int` (scraper.py:66-81).  Branches in source order:
`None`; `isinstance(value, (int,))` — which is true for `bool`, a subclass of
`int`, so `int(True) = 1` and `int(False) = 0`; `isinstance(value, float)` —
`int(f)` truncates toward zero and raises on `nan`/`inf`, which the
surrounding `try` turns into `None`; `isinstance(value, str)` — commas
removed, stripped, accepted iff `v.isdigit()`.  Everything else is `None`.
`str.isdigit` is modelled as ASCII `Char.isDigit`: CPython's `isdigit` also
accepts other Unicode digit characters, of which the decimal ones (category
Nd) are likewise accepted by `int(v)` and the rest make `int(v)` raise
`ValueError`, caught by the same `try`; the composite therefore accepts
exactly decimal-digit strings, of which we model the ASCII ones. -/
def parse_int (v : PyValue) : Option Int :=
  match v with
  | .none => Option.none
  | .bool b => some (if b then 1 else 0)
  | .int n => some n
  | .float (.finite q) => some (pyTrunc q)
  | .float _ => Option.none
  | .str s =>
      let c := cleanedDigits s
      if !c.isEmpty && c.all Char.isDigit then some (digitsToNat c : Int) else Option.none
  | .list _ => Option.none
  | .dict _ => Option.none

/-- A character matched inside a hashtag by the pattern
`#[\wÀ-ɏḀ-ỿĀ-ſƀ-ɏḀ-ỿ]+`
(scraper.py:91).  The explicit Latin ranges are subsumed by Unicode `\w`
anyway; we model `\w` as ASCII alphanumerics plus underscore plus those
ranges.  (CPython's `\w` additionally matches word characters outside the
Latin repertoire; no claim depends on them.) -/
def isWordChar (c : Char) : Bool :=
  c.isAlphanum || c == '_' ||
  (decide (0xc0 ≤ c.toNat) && decide (c.toNat ≤ 0x24f)) ||
  (decide (0x1e00 ≤ c.toNat) && decide (c.toNat ≤ 0x1eff))

/-- `re.findall(hashtag_pattern, caption, re.IGNORECASE)`: scan left to
right; at a `#` followed by at least one word character the (greedy) match is
`#` plus the maximal word-character run, and scanning resumes after it;
otherwise move one character right.  `re.IGNORECASE` does not change the
character class, which is already closed under case. -/
def findTagsAux : Nat → List Char → List (List Char)
  | 0, _ => []
  | Nat.succ fuel, l =>
    match l with
    | [] => []
    | c :: rest =>
      if c = '#' then
        match rest.takeWhile isWordChar with
        | [] => findTagsAux fuel rest
        | r1 => ('#' :: r1) :: findTagsAux fuel (rest.dropWhile isWordChar)
      else findTagsAux fuel rest

/-- The hashtag tokens of a caption, as strings, in match order.  Each step
of `findTagsAux` consumes at least one character while using one unit of
fuel, so `length + 1` fuel always reaches the end of the input. -/
def findTags (s : String) : List String :=
  (findTagsAux (s.data.length + 1) s.data).map (fun l => String.mk l)

/-- `str.lower()` restricted to the repertoire of `isWordChar`: ASCII
letters, and U+00C0..U+00DE except the multiplication sign U+00D7, map 0x20
upward (exactly CPython's behaviour on those characters).  Case mappings of
other Unicode letters are not modelled; no claim depends on them. -/
def pyLowerChar (c : Char) : Char :=
  if 'A' ≤ c ∧ c ≤ 'Z' then Char.ofNat (c.toNat + 32)
  else if 0xc0 ≤ c.toNat ∧ c.toNat ≤ 0xde ∧ c.toNat ≠ 0xd7 then Char.ofNat (c.toNat + 32)
  else c

/-- `tag.lower()` on a whole string. -/
def pyLower (s : String) : String := String.mk (s.data.map pyLowerChar)

/-- The de-duplication loop of `_extract_hashtags` (scraper.py:95-101):
`seen` collects lowercased tags; a tag is kept, with its original casing,
iff its lowercase form is new.  Rendered as structural recursion over the
tag list, which performs the same appends in the same order as the Python
`for` loop. -/
def dedupTags (seen : List String) : List String → List String
  | [] => []
  | t :: ts =>
    if pyLower t ∈ seen then dedupTags seen ts
    else t :: dedupTags (pyLower t :: seen) ts

/-- `_extract_hashtags` (scraper.py:84-103).  `if not caption or not
isinstance(caption, str)` returns `[]` for every non-string and for the empty
string; otherwise the regex matches are de-duplicated case-insensitively. -/
def extract_hashtags (v : PyValue) : List String :=
  match v with
  | .str s => if s == "" then [] else dedupTags [] (findTags s)
  | _ => []

/-! ### A model of `json.loads`

Recursive-descent parser for the JSON the scraper feeds to `json.loads`:
the standard grammar plus CPython's default extensions `NaN`, `Infinity`,
`-Infinity`.  Numbers with a fraction or exponent become floats (held as
exact rationals; the rounding to binary doubles, and the overflow of huge
exponents to `inf`, are not modelled — no claim parses such numbers).
Objects are normalised the way CPython dicts are built: a repeated key
updates the stored value in place and keeps its first position.  Strings
reject raw control characters (strict mode) and support the standard
escapes including surrogate pairs; lone surrogates, which CPython would keep,
have no Lean `Char` representation and are rejected. -/

/-- JSON insignificant whitespace. -/
def skipWs (l : List Char) : List Char :=
  l.dropWhile (fun c => c == ' ' || c == '\t' || c == '\n' || c == '\r')

/-- Value of one hex digit, if any. -/
def hexVal (c : Char) : Option Nat :=
  if '0' ≤ c ∧ c ≤ '9' then some (c.toNat - 48)
  else if 'a' ≤ c ∧ c ≤ 'f' then some (c.toNat - 87)
  else if 'A' ≤ c ∧ c ≤ 'F' then some (c.toNat - 55)
  else Option.none

/-- Prepend a character to the content of a string-parse result. -/
def consFst (c : Char) : Option (List Char × List Char) → Option (List Char × List Char)
  | some (l, r) => some (c :: l, r)
  | Option.none => Option.none

/-- Parse the rest of a JSON string (after the opening quote): returns the
content and the remaining input after the closing quote. -/
def parseJString : List Char → Option (List Char × List Char)
  | [] => Option.none
  | c :: rest =>
    if c = '"' then some ([], rest)
    else if c = '\\' then
      match rest with
      | '"' :: r => consFst '"' (parseJString r)
      | '\\' :: r => consFst '\\' (parseJString r)
      | '/' :: r => consFst '/' (parseJString r)
      | 'b' :: r => consFst '\x08' (parseJString r)
      | 'f' :: r => consFst '\x0c' (parseJString r)
      | 'n' :: r => consFst '\n' (parseJString r)
      | 'r' :: r => consFst '\r' (parseJString r)
      | 't' :: r => consFst '\t' (parseJString r)
      | 'u' :: h1 :: h2 :: h3 :: h4 :: r =>
        match hexVal h1, hexVal h2, hexVal h3, hexVal h4 with
        | some a, some b, some c2, some d =>
          let code := ((a * 16 + b) * 16 + c2) * 16 + d
          if code < 0xd800 ∨ 0xdfff < code then consFst (Char.ofNat code) (parseJString r)
          else if code ≤ 0xdbff then
            match r with
            | '\\' :: 'u' :: g1 :: g2 :: g3 :: g4 :: r2 =>
              match hexVal g1, hexVal g2, hexVal g3, hexVal g4 with
              | some e1, some e2, some e3, some e4 =>
                let lo := ((e1 * 16 + e2) * 16 + e3) * 16 + e4
                if 0xdc00 ≤ lo ∧ lo ≤ 0xdfff then
                  consFst (Char.ofNat (0x10000 + (code - 0xd800) * 0x400 + (lo - 0xdc00)))
                    (parseJString r2)
                else Option.none
              | _, _, _, _ => Option.none
            | _ => Option.none
          else Option.none
        | _, _, _, _ => Option.none
      | _ => Option.none
    else if c.toNat < 0x20 then Option.none
    else consFst c (parseJString rest)

/-- Parse a JSON number per the grammar `-?(0|[1-9]\d*)(\.\d+)?([eE][+-]?\d+)?`
(the regex CPython's scanner uses).  Pure integer syntax yields a Python
`int`; a fraction or exponent yields a float, computed exactly. -/
def parseNumber (s : List Char) : Option (PyValue × List Char) :=
  let p := match s with
    | '-' :: r => (true, r)
    | _ => (false, s)
  let neg := p.1
  let s1 := p.2
  match s1 with
  | [] => Option.none
  | c :: _ =>
    if ¬ c.isDigit then Option.none
    else
      let ip := if c = '0' then (([c] : List Char), s1.tail)
                else (s1.takeWhile Char.isDigit, s1.dropWhile Char.isDigit)
      let intDigits := ip.1
      let rest1 := ip.2
      let fp := match rest1 with
        | '.' :: d :: r =>
          if d.isDigit then ((d :: r).takeWhile Char.isDigit, (d :: r).dropWhile Char.isDigit)
          else (([] : List Char), rest1)
        | _ => (([] : List Char), rest1)
      let fracDigits := fp.1
      let rest2 := fp.2
      let ep : Bool × Bool × List Char × List Char := match rest2 with
        | e :: '+' :: d :: r2 =>
          if (e = 'e' ∨ e = 'E') ∧ d.isDigit then
            (true, false, (d :: r2).takeWhile Char.isDigit, (d :: r2).dropWhile Char.isDigit)
          else (false, false, [], rest2)
        | e :: '-' :: d :: r2 =>
          if (e = 'e' ∨ e = 'E') ∧ d.isDigit then
            (true, true, (d :: r2).takeWhile Char.isDigit, (d :: r2).dropWhile Char.isDigit)
          else (false, false, [], rest2)
        | e :: d :: r2 =>
          if (e = 'e' ∨ e = 'E') ∧ d.isDigit then
            (true, false, (d :: r2).takeWhile Char.isDigit, (d :: r2).dropWhile Char.isDigit)
          else (false, false, [], rest2)
        | _ => (false, false, [], rest2)
      let hasExp := ep.1
      let expNeg := ep.2.1
      let expDigits := ep.2.2.1
      let rest3 := ep.2.2.2
      if fracDigits.isEmpty ∧ ¬ (hasExp = true) then
        let n : Int := (digitsToNat intDigits : Int)
        some (.int (if neg then -n else n), rest1)
      else
        let mant : ℚ := (digitsToNat intDigits : ℚ) + (digitsToNat fracDigits : ℚ) / (10 : ℚ) ^ fracDigits.length
        let expo : Int := if expNeg then -(digitsToNat expDigits : Int) else (digitsToNat expDigits : Int)
        let scaled : ℚ := if 0 ≤ expo then mant * (10 : ℚ) ^ expo.toNat else mant / (10 : ℚ) ^ expo.natAbs
        some (.float (.finite (if neg then -scaled else scaled)), rest3)

/-- CPython dict insertion: a repeated key keeps its original position and
gets the new value; a new key is appended. -/
def dictInsert (es : List (String × PyValue)) (k : String) (v : PyValue) :
    List (String × PyValue) :=
  if es.any (fun p => p.1 == k) then es.map (fun p => if p.1 == k then (k, v) else p)
  else es ++ [(k, v)]

mutual

/-- Parse one JSON value.  Fuel only bounds nesting (every recursion step
consumes input); `jsonLoads` supplies enough fuel for any input, mirroring
how CPython only fails on pathological nesting via `RecursionError`. -/
def parseJValue : Nat → List Char → Option (PyValue × List Char)
  | 0, _ => Option.none
  | Nat.succ fuel, s =>
    match skipWs s with
    | [] => Option.none
    | c :: rest =>
      if c = 'n' then
        match rest with
        | 'u' :: 'l' :: 'l' :: r => some (.none, r)
        | _ => Option.none
      else if c = 't' then
        match rest with
        | 'r' :: 'u' :: 'e' :: r => some (.bool true, r)
        | _ => Option.none
      else if c = 'f' then
        match rest with
        | 'a' :: 'l' :: 's' :: 'e' :: r => some (.bool false, r)
        | _ => Option.none
      else if c = 'N' then
        match rest with
        | 'a' :: 'N' :: r => some (.float .nan, r)
        | _ => Option.none
      else if c = 'I' then
        match rest with
        | 'n' :: 'f' :: 'i' :: 'n' :: 'i' :: 't' :: 'y' :: r => some (.float .inf, r)
        | _ => Option.none
      else if c = '-' then
        match rest with
        | 'I' :: 'n' :: 'f' :: 'i' :: 'n' :: 'i' :: 't' :: 'y' :: r => some (.float .neginf, r)
        | _ => parseNumber (c :: rest)
      else if c = '"' then
        match parseJString rest with
        | some (content, r) => some (.str (String.mk content), r)
        | Option.none => Option.none
      else if c = '[' then
        match skipWs rest with
        | ']' :: r => some (.list [], r)
        | r2 =>
          match parseJArrayItems fuel r2 with
          | some (vs, r3) => some (.list vs, r3)
          | Option.none => Option.none
      else if c = '\x7b' then
        match skipWs rest with
        | '\x7d' :: r => some (.dict [], r)
        | r2 =>
          match parseJObjItems fuel r2 with
          | some (ps, r3) =>
            some (.dict (ps.foldl (fun acc p => dictInsert acc p.1 p.2) []), r3)
          | Option.none => Option.none
      else parseNumber (c :: rest)

/-- Parse `value (',' value)* ']'` inside an array. -/
def parseJArrayItems : Nat → List Char → Option (List PyValue × List Char)
  | 0, _ => Option.none
  | Nat.succ fuel, s =>
    match parseJValue fuel s with
    | Option.none => Option.none
    | some (v, r) =>
      match skipWs r with
      | ',' :: r2 =>
        match parseJArrayItems fuel r2 with
        | some (vs, r3) => some (v :: vs, r3)
        | Option.none => Option.none
      | ']' :: r2 => some ([v], r2)
      | _ => Option.none

/-- Parse `'"' key '"' ':' value (',' ...)* '\x7d'` inside an object. -/
def parseJObjItems : Nat → List Char → Option (List (String × PyValue) × List Char)
  | 0, _ => Option.none
  | Nat.succ fuel, s =>
    match skipWs s with
    | '"' :: r =>
      match parseJString r with
      | Option.none => Option.none
      | some (key, r2) =>
        match skipWs r2 with
        | ':' :: r3 =>
          match parseJValue fuel r3 with
          | Option.none => Option.none
          | some (v, r4) =>
            match skipWs r4 with
            | ',' :: r5 =>
              match parseJObjItems fuel r5 with
              | some (ps, r6) => some ((String.mk key, v) :: ps, r6)
              | Option.none => Option.none
            | '\x7d' :: r5 => some ([(String.mk key, v)], r5)
            | _ => Option.none
        | _ => Option.none
    | _ => Option.none

end

/-- `json.loads` on a blob: parse one value, then require only whitespace to
remain (CPython raises `JSONDecodeError` on trailing data).  The fuel bound
exceeds any possible nesting depth of the input. -/
def jsonLoads (blob : List Char) : Option PyValue :=
  match parseJValue (2 * blob.length + 2) blob with
  | some (v, rest) => if (skipWs rest).isEmpty then some v else Option.none
  | Option.none => Option.none

/-! ### The embedded-script regexes

`SIGI_STATE_RE`, `NEXT_DATA_RE` and `UNIVERSAL_DATA_RE` (scraper.py:41-43)
all have the shape

  `<script[^>]*id="ID"[^>]*>(.*?)</script>`   with `re.DOTALL`,

used through `re.search(...)` / `.group(1)`.  `re.search` returns the
leftmost match.  Within one match the group is independent of how the greedy
`[^>]*` backtracks: the characters consumed by `[^>]*id="ID"` lie inside one
run of non-`>` characters, the second `[^>]*>` then always stops at the first
`>` ending that run, and the lazy `(.*?)</script>` takes everything up to
the first following `</script>`.  The model below therefore matches the
needle `id="ID"` at the first position reachable without crossing a `>`,
which yields the same group as Python's backtracking search. -/

/-- Scan for `needle` without crossing a `>` (the `[^>]*id="ID"` part);
returns the input after the needle. -/
def findAfterId (needle : List Char) : List Char → Option (List Char)
  | [] => Option.none
  | c :: cs =>
    if needle.isPrefixOf (c :: cs) then some ((c :: cs).drop needle.length)
    else if c = '>' then Option.none
    else findAfterId needle cs

/-- The lazy `(.*?)needle`: content before the first occurrence of `needle`
(fails if `needle` never occurs). -/
def takeUntil (needle : List Char) : List Char → Option (List Char)
  | [] => Option.none
  | c :: cs =>
    if needle.isPrefixOf (c :: cs) then some []
    else match takeUntil needle cs with
      | some l => some (c :: l)
      | Option.none => Option.none

/-- Try to match the whole pattern at the current position; on success
return the captured group (the script body). -/
def matchScriptAt (idAttr : String) (s : List Char) : Option (List Char) :=
  if ("<script".data).isPrefixOf s then
    match findAfterId (("id=\"" ++ idAttr ++ "\"").data) (s.drop 7) with
    | Option.none => Option.none
    | some rest2 =>
      match rest2.dropWhile (fun c => c != '>') with
      | '>' :: after => takeUntil ("</script>".data) after
      | _ => Option.none
  else Option.none

/-- `PATTERN_RE.search(html)` followed by `.group(1)`: try each start
position from the left; `none` models a failed `re.search`. -/
def searchScript (idAttr : String) : List Char → Option (List Char)
  | [] => Option.none
  | c :: rest =>
    match matchScriptAt idAttr (c :: rest) with
    | some body => some body
    | Option.none => searchScript idAttr rest

/-- The script-element ids of the three formats (scraper.py:41-43). -/
def sigiId : String := "SIGI_STATE"

def nextId : String := "__NEXT_DATA__"

def universalId : String := "__UNIVERSAL_DATA_FOR_REHYDRATION__"

/-! ### The normalized record and the three extractors -/

/-- `TikTokVideoStats` (scraper.py:46-53).  `caption` holds whatever the
item's `desc` field was (the dataclass does not enforce its `Optional[str]`
annotation), the four counts are what `_parse_int` produced, and `hashtags`
is what the constructor call passed (always a real list in this program, a
fact claimed and proved below). -/
structure TikTokVideoStats where
  caption : PyValue
  views : Option Int
  likes : Option Int
  shares : Option Int
  comments : Option Int
  hashtags : Option (List String)

/-- The record constructed by all three extractors (scraper.py:122-128,
156-162, 189-195 — the three constructor calls are textually identical):
`itemE` is the item dict, `statsE` the stats dict actually indexed. -/
def mkStats (itemE statsE : List (String × PyValue)) : TikTokVideoStats :=
  { caption := lookupD itemE "desc" .none
    views := parse_int (lookupD statsE "playCount" .none)
    likes := parse_int (lookupD statsE "diggCount" .none)
    shares := parse_int (lookupD statsE "shareCount" .none)
    comments := parse_int (lookupD statsE "commentCount" .none)
    hashtags := some (extract_hashtags (lookupD itemE "desc" .none)) }

/-- `TikTokVideoStats.as_dict` (scraper.py:55-63), with the fields embedded
back into `PyValue` dictionary values. -/
def optIntToPy : Option Int → PyValue
  | Option.none => .none
  | some n => .int n

/-- Embedding of the `hashtags` field into a dictionary value. -/
def tagsToPy : Option (List String) → PyValue
  | Option.none => .none
  | some l => .list (l.map .str)

/-- `as_dict` returns the six-entry dictionary in source order. -/
def as_dict (s : TikTokVideoStats) : List (String × PyValue) :=
  [("caption", s.caption),
   ("views", optIntToPy s.views),
   ("likes", optIntToPy s.likes),
   ("shares", optIntToPy s.shares),
   ("comments", optIntToPy s.comments),
   ("hashtags", tagsToPy s.hashtags)]

/-- `_extract_from_sigi_state` (scraper.py:106-132).  Only
`json.JSONDecodeError` is caught here; the `.get` navigation is NOT inside a
`try`, so `data.get("ItemModule")` on a non-dict `data`, and
`stats.get("playCount")` on a truthy non-dict `stats`, raise an
`AttributeError` that escapes — modelled as `.error ()`. -/
def extract_from_sigi_state (html : String) : Except Unit (Option TikTokVideoStats) :=
  match searchScript sigiId html.data with
  | Option.none => .ok Option.none
  | some blob =>
  match jsonLoads blob with
  | Option.none => .ok Option.none
  | some data =>
  match pyGet data "ItemModule" with
  | .error e => .error e
  | .ok raw =>
  match (if pyTruthy raw then raw else PyValue.dict []) with
  | .dict ((_, first) :: _) =>
    match first with
    | .dict itemE =>
      match (if pyTruthy (lookupD itemE "stats" .none)
             then lookupD itemE "stats" .none else PyValue.dict []) with
      | .dict statsE => .ok (some (mkStats itemE statsE))
      | _ => .error ()
    | _ => .ok Option.none
  | _ => .ok Option.none

/-- The chained
`data.get("__DEFAULT_SCOPE__", {}).get("webapp.video-detail", {})
.get("itemInfo", {}).get("itemStruct", {})` of
`_extract_from_universal_data` (scraper.py:146-151). -/
def universal_item (data : PyValue) : Except Unit PyValue :=
  match pyGetD data "__DEFAULT_SCOPE__" (.dict []) with
  | .error e => .error e
  | .ok a =>
  match pyGetD a "webapp.video-detail" (.dict []) with
  | .error e => .error e
  | .ok b =>
  match pyGetD b "itemInfo" (.dict []) with
  | .error e => .error e
  | .ok c => pyGetD c "itemStruct" (.dict [])

/-- The chained `data.get("props", {}).get("pageProps", {})
.get("itemInfo", {}).get("itemStruct", {})` of `_extract_from_next_data`
(scraper.py:179-184). -/
def next_item (data : PyValue) : Except Unit PyValue :=
  match pyGetD data "props" (.dict []) with
  | .error e => .error e
  | .ok a =>
  match pyGetD a "pageProps" (.dict []) with
  | .error e => .error e
  | .ok b =>
  match pyGetD b "itemInfo" (.dict []) with
  | .error e => .error e
  | .ok c => pyGetD c "itemStruct" (.dict [])

/-- The shared tail of the universal-data and next-data extractors
(scraper.py:152-163 and 185-196, textually identical): reject a non-dict or
empty item, then `stats = item.get("stats", {})`; `stats.get(...)` raises on
a non-dict `stats` — inside these extractors that exception is caught by the
surrounding `try`. -/
def item_to_stats (item : PyValue) : Except Unit (Option TikTokVideoStats) :=
  match item with
  | .dict (e :: rest) =>
    match lookupD (e :: rest) "stats" (.dict []) with
    | .dict statsE => .ok (some (mkStats (e :: rest) statsE))
    | _ => .error ()
  | _ => .ok Option.none

/-- `except Exception: return None` around the navigation of the
universal-data / next-data extractors. -/
def exceptCaught (x : Except Unit (Option TikTokVideoStats)) : Option TikTokVideoStats :=
  match x with
  | .ok r => r
  | .error _ => Option.none

/-- `_extract_from_universal_data` (scraper.py:135-165): regex, JSON parse,
then the navigation with every exception caught. -/
def extract_from_universal_data (html : String) : Option TikTokVideoStats :=
  match searchScript universalId html.data with
  | Option.none => Option.none
  | some blob =>
  match jsonLoads blob with
  | Option.none => Option.none
  | some data =>
    exceptCaught
      (match universal_item data with
       | .error e => .error e
       | .ok item => item_to_stats item)

/-- `_extract_from_next_data` (scraper.py:168-198): same shape with the
`__NEXT_DATA__` path. -/
def extract_from_next_data (html : String) : Option TikTokVideoStats :=
  match searchScript nextId html.data with
  | Option.none => Option.none
  | some blob =>
  match jsonLoads blob with
  | Option.none => Option.none
  | some data =>
    exceptCaught
      (match next_item data with
       | .error e => .error e
       | .ok item => item_to_stats item)

/-- How a call to `scrape_tiktok_video` on a fetched page can end: an
uncaught `AttributeError` escaping `_extract_from_sigi_state`, or the final
`RuntimeError` when every extractor came back empty. -/
inductive ScrapeError where
  | attributeError
  | runtimeError
deriving DecidableEq

/-- The parsing pipeline of `scrape_tiktok_video` (scraper.py:237-255), from
the fetched HTML text onward: try the universal-data extractor, then
SIGI_STATE, then `__NEXT_DATA__`, returning the first record produced (a
`TikTokVideoStats` instance is always truthy, so `if stats:` means
`is not None`); raise `RuntimeError` if none of them produced one. -/
def scrape_tiktok_video (html : String) : Except ScrapeError TikTokVideoStats :=
  match extract_from_universal_data html with
  | some s => .ok s
  | Option.none =>
  match extract_from_sigi_state html with
  | .error _ => .error .attributeError
  | .ok (some s) => .ok s
  | .ok Option.none =>
  match extract_from_next_data html with
  | some s => .ok s
  | Option.none => .error .runtimeError

/-! ### Discovery helpers

`search_videos` and `discover_trending_videos` wrap one or two
`requests.get` calls and some JSON-shape guessing in `try`/`except` blocks
that swallow every exception.  The HTTP layer is outside the program, so a
response is an input: `Option.none` stands for `requests.get` raising (the
exception lands in the enclosing `except`), and `HttpResp` carries the
status code and body text the call would have produced. -/

/-- An HTTP response as the scraper sees it. -/
structure HttpResp where
  status : Nat
  body : String

/-- `str(value)` as used in the f-string URLs.  Strings, ints, bools and
`None` are rendered exactly; the decimal rendering of floats and the `repr`
of containers are not modelled textually (no claim depends on URL text). -/
def pyToStr (v : PyValue) : String :=
  match v with
  | .str s => s
  | .int n => toString n
  | .bool true => "True"
  | .bool false => "False"
  | .none => "None"
  | .float (.finite q) => toString q.num ++ "F" ++ toString q.den
  | .float .nan => "nan"
  | .float .inf => "inf"
  | .float .neginf => "-inf"
  | .list _ => "[...]"
  | .dict _ => "\x7b...\x7d"

/-- `f"https://www.tiktok.com/@{author_id}/video/{video_id}"`. -/
def mkVideoUrl (author vid : PyValue) : String :=
  "https://www.tiktok.com/@" ++ pyToStr author ++ "/video/" ++ pyToStr vid

/-- Python list slicing `l[:count]` with an `int` bound: a negative bound
counts from the end (`len(l) + count`, clamped at 0). -/
def pySliceTo (l : List String) (count : Int) : List String :=
  if count < 0 then l.take (l.length - count.natAbs) else l.take count.toNat

/-- The `for item in data_list` loop of `search_videos` (scraper.py:355-361):
keep items of `type == 1` (Python `==` also equates `True` and numerically
equal floats with `1`) whose `item.get("item", {})` has a truthy `id`.
`.get` on a non-dict raises; the exception is caught by the enclosing
`except` and turns the whole result into `[]`. -/
def searchLoop : List PyValue → Except Unit (List String)
  | [] => .ok []
  | item :: rest =>
    match item with
    | .dict ie =>
      if (match lookupD ie "type" .none with
          | .int n => n == 1
          | .bool b => b
          | .float (.finite q) => q == 1
          | _ => false) then
        match lookupD ie "item" (.dict []) with
        | .dict infoE =>
          if pyTruthy (lookupD infoE "id" .none) then
            match lookupD infoE "author" (.dict []) with
            | .dict aE =>
              match searchLoop rest with
              | .ok us =>
                .ok (mkVideoUrl (lookupD aE "unique_id" (.str "user"))
                      (lookupD infoE "id" .none) :: us)
              | .error e => .error e
            | _ => .error ()
          else searchLoop rest
        | _ => .error ()
      else searchLoop rest
    | _ => .error ()

/-- `data.get("data", [])` and the loop of `search_videos`, ending in
`return video_urls[:count]`.  A non-list `data_list` is modelled as the
exception path: in the source an empty non-list iterable returns `[]`
directly while other non-lists raise into the same `except`, so the final
value agrees (`[]`) either way — only a list of dicts can yield URLs. -/
def buildSearchUrls (data : PyValue) (count : Int) : Except Unit (List String) :=
  match pyGetD data "data" (.list []) with
  | .error e => .error e
  | .ok (.list items) =>
    match searchLoop items with
    | .error e => .error e
    | .ok urls => .ok (pySliceTo urls count)
  | .ok _ => .error ()

/-- `search_videos` (scraper.py:330-369) from the response onward.  Every
failure — request exception (`resp = none`), a non-200 status, a body
`resp.json()` cannot parse, or any exception while digging through the
parsed data — produces `[]`. -/
def search_videos (resp : Option HttpResp) (count : Int) : List String :=
  match resp with
  | Option.none => []
  | some r =>
    if r.status == 200 then
      match jsonLoads r.body.data with
      | Option.none => []
      | some data =>
        match buildSearchUrls data count with
        | .ok urls => urls
        | .error _ => []
    else []

/-- The `webapp.video-detail` part of `discover_trending_videos`
(scraper.py:300-308): at most one URL, from
`itemStruct.get("id")` / `itemStruct.get("author", {}).get("uniqueId", "user")`. -/
def trendingDetailUrls (scope : PyValue) : Except Unit (List String) :=
  match pyGetD scope "webapp.video-detail" (.dict []) with
  | .error e => .error e
  | .ok vd =>
    if pyTruthy vd then
      match pyGetD vd "itemInfo" (.dict []) with
      | .error e => .error e
      | .ok ii =>
        match pyGetD ii "itemStruct" (.dict []) with
        | .error e => .error e
        | .ok istr =>
          match pyGet istr "id" with
          | .error e => .error e
          | .ok idv =>
            if pyTruthy idv then
              match pyGetD istr "author" (.dict []) with
              | .error e => .error e
              | .ok author =>
                match author with
                | .dict aE => .ok [mkVideoUrl (lookupD aE "uniqueId" (.str "user")) idv]
                | _ => .error ()
            else .ok []
    else .ok []

/-- The `ItemModule` loop of `discover_trending_videos` (scraper.py:311-319):
append a URL for each dict item with a truthy `id`, breaking once
`len(video_urls) >= count`.  `item.get("author", {}).get("uniqueId", "user")`
raises on a truthy non-dict author. -/
def trendingLoop (count : Int) : List (String × PyValue) → List String → Except Unit (List String)
  | [], urls => .ok urls
  | (_, item) :: rest, urls =>
    match item with
    | .dict ie =>
      if pyTruthy (lookupD ie "id" .none) then
        match lookupD ie "author" (.dict []) with
        | .dict aE =>
          let urls2 := urls ++ [mkVideoUrl (lookupD aE "uniqueId" (.str "user"))
                                  (lookupD ie "id" .none)]
          if (urls2.length : Int) ≥ count then .ok urls2
          else trendingLoop count rest urls2
        | _ => .error ()
      else trendingLoop count rest urls
    | _ => trendingLoop count rest urls

/-- The body of `discover_trending_videos` after a 200 response and a located
`__UNIVERSAL_DATA_FOR_REHYDRATION__` blob (scraper.py:294-321), ending in
`return video_urls[:count]`. -/
def trendingBuild (data : PyValue) (count : Int) : Except Unit (List String) :=
  match pyGetD data "__DEFAULT_SCOPE__" (.dict []) with
  | .error e => .error e
  | .ok scope =>
    match trendingDetailUrls scope with
    | .error e => .error e
    | .ok urls0 =>
      match pyGetD scope "ItemModule" (.dict []) with
      | .error e => .error e
      | .ok im =>
        match im with
        | .dict items =>
          match trendingLoop count items urls0 with
          | .error e => .error e
          | .ok urls => .ok (pySliceTo urls count)
        | _ => .ok (pySliceTo urls0 count)

/-- Processing of a 200 response body in `discover_trending_videos`: regex,
`json.loads` inside `try ... except: pass`, navigation inside the same
`try`; any failure falls through to `return []`. -/
def processTrending (body : String) (count : Int) : List String :=
  match searchScript universalId body.data with
  | Option.none => []
  | some blob =>
    match jsonLoads blob with
    | Option.none => []
    | some data =>
      match trendingBuild data count with
      | .ok urls => urls
      | .error _ => []

/-- `discover_trending_videos` (scraper.py:274-327) from the responses
onward: fetch `/foryou` (`resp1`); on a non-200 status fetch `/` (`resp2`);
only a final 200 response is parsed; every exception is swallowed into `[]`. -/
def discover_trending_videos (resp1 resp2 : Option HttpResp) (count : Int) : List String :=
  match resp1 with
  | Option.none => []
  | some r1 =>
    if r1.status == 200 then processTrending r1.body count
    else
      match resp2 with
      | Option.none => []
      | some r2 => if r2.status == 200 then processTrending r2.body count else []

/-- The URL de-duplication loop shared by `intelligent_auto_search`
(scraper.py:536-541) and `smart_hashtag_search` (scraper.py:605-610):
keep the first occurrence of each URL, preserving order.  Rendered as
structural recursion performing the same appends as the Python loop. -/
def dedupUrls (seen : List String) : List String → List String
  | [] => []
  | u :: us =>
    if u ∈ seen then dedupUrls seen us
    else u :: dedupUrls (u :: seen) us

/-- `intelligent_auto_search` (scraper.py:415-546).  The keyword strategies
only decide which `search_videos` results accumulate into `video_urls` (the
prints, sleeps and shuffles do not touch the list), so the function is
modelled on an arbitrary accumulated `video_urls` list: the returned value
is `unique_urls[:count]` for `unique_urls` the order-preserving
de-duplication (scraper.py:535-546). -/
def intelligent_auto_search (video_urls : List String) (count : Int) : List String :=
  pySliceTo (dedupUrls [] video_urls) count

/-- `smart_hashtag_search` (scraper.py:549-615): identical post-processing of
its accumulated `video_urls` (scraper.py:604-615). -/
def smart_hashtag_search (video_urls : List String) (count : Int) : List String :=
  pySliceTo (dedupUrls [] video_urls) count

/-! ## Lemmas about the de-duplication loops -/

theorem dedupTags_sublist (seen l : List String) : (dedupTags seen l).Sublist l := by
  induction l generalizing seen with
  | nil => simp [dedupTags]
  | cons t ts ih =>
    by_cases h : pyLower t ∈ seen
    · simp only [dedupTags, if_pos h]
      exact (ih seen).cons t
    · simp only [dedupTags, if_neg h]
      exact (ih (pyLower t :: seen)).cons₂ t

theorem dedupTags_not_seen (seen l : List String) :
    ∀ u ∈ dedupTags seen l, pyLower u ∉ seen := by
  induction l generalizing seen with
  | nil => simp [dedupTags]
  | cons t ts ih =>
    by_cases h : pyLower t ∈ seen
    · simp only [dedupTags, if_pos h]
      exact ih seen
    · simp only [dedupTags, if_neg h]
      intro u hu
      rcases List.mem_cons.mp hu with rfl | hu2
      · exact h
      · intro hc
        exact ih (pyLower t :: seen) u hu2 (List.mem_cons_of_mem _ hc)

theorem dedupTags_pairwise (seen l : List String) :
    (dedupTags seen l).Pairwise (fun a b => pyLower a ≠ pyLower b) := by
  induction l generalizing seen with
  | nil => simp [dedupTags]
  | cons t ts ih =>
    by_cases h : pyLower t ∈ seen
    · simp only [dedupTags, if_pos h]
      exact ih seen
    · simp only [dedupTags, if_neg h]
      refine List.Pairwise.cons ?_ (ih (pyLower t :: seen))
      intro b hb hc
      apply dedupTags_not_seen (pyLower t :: seen) ts b hb
      rw [← hc]
      exact List.mem_cons_self _ _

theorem dedupTags_find_first (seen l : List String) :
    ∀ u ∈ dedupTags seen l, l.find? (fun t => pyLower t == pyLower u) = some u := by
  induction l generalizing seen with
  | nil => simp [dedupTags]
  | cons t ts ih =>
    by_cases h : pyLower t ∈ seen
    · simp only [dedupTags, if_pos h]
      intro u hu
      have hne : ¬ pyLower t = pyLower u := by
        intro hc
        exact dedupTags_not_seen seen ts u hu (hc ▸ h)
      rw [List.find?_cons_of_neg _ (by simpa using hne)]
      exact ih seen u hu
    · simp only [dedupTags, if_neg h]
      intro u hu
      rcases List.mem_cons.mp hu with rfl | hu2
      · rw [List.find?_cons_of_pos _ (by simp)]
      · have hne : ¬ pyLower t = pyLower u := by
          intro hc
          apply dedupTags_not_seen (pyLower t :: seen) ts u hu2
          rw [← hc]
          exact List.mem_cons_self _ _
        rw [List.find?_cons_of_neg _ (by simpa using hne)]
        exact ih (pyLower t :: seen) u hu2

theorem dedupTags_complete (seen l : List String) :
    ∀ t ∈ l, pyLower t ∉ seen → ∃ u ∈ dedupTags seen l, pyLower u = pyLower t := by
  induction l generalizing seen with
  | nil => simp
  | cons a ts ih =>
    intro t ht hns
    rcases List.mem_cons.mp ht with rfl | ht2
    · simp only [dedupTags, if_neg hns]
      exact ⟨t, List.mem_cons_self _ _, rfl⟩
    · by_cases h : pyLower a ∈ seen
      · simp only [dedupTags, if_pos h]
        exact ih seen t ht2 hns
      · simp only [dedupTags, if_neg h]
        by_cases heq : pyLower t = pyLower a
        · exact ⟨a, List.mem_cons_self _ _, heq.symm⟩
        · obtain ⟨u, hu, he⟩ := ih (pyLower a :: seen) t ht2 (by
            intro hc
            rcases List.mem_cons.mp hc with h1 | h2
            · exact heq h1
            · exact hns h2)
          exact ⟨u, List.mem_cons_of_mem _ hu, he⟩

theorem dedupUrls_sublist (seen l : List String) : (dedupUrls seen l).Sublist l := by
  induction l generalizing seen with
  | nil => simp [dedupUrls]
  | cons t ts ih =>
    by_cases h : t ∈ seen
    · simp only [dedupUrls, if_pos h]
      exact (ih seen).cons t
    · simp only [dedupUrls, if_neg h]
      exact (ih (t :: seen)).cons₂ t

theorem dedupUrls_not_seen (seen l : List String) : ∀ u ∈ dedupUrls seen l, u ∉ seen := by
  induction l generalizing seen with
  | nil => simp [dedupUrls]
  | cons t ts ih =>
    by_cases h : t ∈ seen
    · simp only [dedupUrls, if_pos h]
      exact ih seen
    · simp only [dedupUrls, if_neg h]
      intro u hu
      rcases List.mem_cons.mp hu with rfl | hu2
      · exact h
      · intro hc
        exact ih (t :: seen) u hu2 (List.mem_cons_of_mem _ hc)

theorem dedupUrls_pairwise (seen l : List String) :
    (dedupUrls seen l).Pairwise (fun a b => a ≠ b) := by
  induction l generalizing seen with
  | nil => simp [dedupUrls]
  | cons t ts ih =>
    by_cases h : t ∈ seen
    · simp only [dedupUrls, if_pos h]
      exact ih seen
    · simp only [dedupUrls, if_neg h]
      refine List.Pairwise.cons ?_ (ih (t :: seen))
      intro b hb hc
      apply dedupUrls_not_seen (t :: seen) ts b hb
      rw [← hc]
      exact List.mem_cons_self _ _

theorem dedupUrls_find_first (seen l : List String) :
    ∀ u ∈ dedupUrls seen l, l.find? (fun t => t == u) = some u := by
  induction l generalizing seen with
  | nil => simp [dedupUrls]
  | cons t ts ih =>
    by_cases h : t ∈ seen
    · simp only [dedupUrls, if_pos h]
      intro u hu
      have hne : ¬ t = u := by
        intro hc
        exact dedupUrls_not_seen seen ts u hu (hc ▸ h)
      rw [List.find?_cons_of_neg _ (by simpa using hne)]
      exact ih seen u hu
    · simp only [dedupUrls, if_neg h]
      intro u hu
      rcases List.mem_cons.mp hu with rfl | hu2
      · rw [List.find?_cons_of_pos _ (by simp)]
      · have hne : ¬ t = u := by
          intro hc
          apply dedupUrls_not_seen (t :: seen) ts u hu2
          rw [← hc]
          exact List.mem_cons_self _ _
        rw [List.find?_cons_of_neg _ (by simpa using hne)]
        exact ih (t :: seen) u hu2

/-! ## Lemmas about slicing and result shapes -/

theorem pySliceTo_sublist (l : List String) (c : Int) : (pySliceTo l c).Sublist l := by
  unfold pySliceTo
  split <;> exact List.take_sublist _ _

theorem pySliceTo_length_le (l : List String) (c : Int) (hc : 0 ≤ c) :
    ((pySliceTo l c).length : Int) ≤ c := by
  unfold pySliceTo
  rw [if_neg (by omega)]
  have h1 : (l.take c.toNat).length ≤ c.toNat := List.length_take_le _ _
  omega

theorem buildSearchUrls_ok (data : PyValue) (count : Int) (urls : List String)
    (h : buildSearchUrls data count = .ok urls) : ∃ l, urls = pySliceTo l count := by
  unfold buildSearchUrls at h
  split at h
  · exact absurd h (by simp)
  · split at h
    · exact absurd h (by simp)
    · injection h with h2
      exact ⟨_, h2.symm⟩
  · exact absurd h (by simp)

theorem trendingBuild_ok (data : PyValue) (count : Int) (urls : List String)
    (h : trendingBuild data count = .ok urls) : ∃ l, urls = pySliceTo l count := by
  unfold trendingBuild at h
  split at h
  · exact absurd h (by simp)
  · split at h
    · exact absurd h (by simp)
    · split at h
      · exact absurd h (by simp)
      · split at h
        · split at h
          · exact absurd h (by simp)
          · injection h with h2
            exact ⟨_, h2.symm⟩
        · injection h with h2
          exact ⟨_, h2.symm⟩

theorem search_videos_shape (resp : Option HttpResp) (count : Int) :
    search_videos resp count = [] ∨ ∃ l, search_videos resp count = pySliceTo l count := by
  cases resp with
  | none => exact Or.inl rfl
  | some r =>
    simp only [search_videos]
    split
    · split
      · exact Or.inl rfl
      · split
        · rename_i heq
          exact Or.inr (buildSearchUrls_ok _ _ _ heq)
        · exact Or.inl rfl
    · exact Or.inl rfl

theorem processTrending_shape (body : String) (count : Int) :
    processTrending body count = [] ∨ ∃ l, processTrending body count = pySliceTo l count := by
  unfold processTrending
  split
  · exact Or.inl rfl
  · split
    · exact Or.inl rfl
    · split
      · rename_i heq
        exact Or.inr (trendingBuild_ok _ _ _ heq)
      · exact Or.inl rfl

theorem discover_trending_shape (r1 r2 : Option HttpResp) (count : Int) :
    discover_trending_videos r1 r2 count = [] ∨
      ∃ l, discover_trending_videos r1 r2 count = pySliceTo l count := by
  cases r1 with
  | none => exact Or.inl rfl
  | some a =>
    simp only [discover_trending_videos]
    split
    · exact processTrending_shape a.body count
    · split
      · exact Or.inl rfl
      · split
        · exact processTrending_shape _ count
        · exact Or.inl rfl

/-! ## Lemmas about the records the extractors build -/

theorem item_to_stats_ok (item : PyValue) (r : TikTokVideoStats)
    (h : item_to_stats item = .ok (some r)) : ∃ iE sE, r = mkStats iE sE := by
  unfold item_to_stats at h
  split at h
  · split at h
    · injection h with h2
      injection h2 with h3
      exact ⟨_, _, h3.symm⟩
    · exact absurd h (by simp)
  · exact absurd h (by simp)

theorem universal_success (html : String) (r : TikTokVideoStats)
    (h : extract_from_universal_data html = some r) : ∃ iE sE, r = mkStats iE sE := by
  unfold extract_from_universal_data at h
  split at h
  · exact absurd h (by simp)
  · split at h
    · exact absurd h (by simp)
    · unfold exceptCaught at h
      split at h
      · rename_i x r2 heq
        split at heq
        · exact absurd heq (by simp)
        · exact item_to_stats_ok _ _ (heq.trans (congrArg Except.ok h))
      · exact absurd h (by simp)

theorem next_success (html : String) (r : TikTokVideoStats)
    (h : extract_from_next_data html = some r) : ∃ iE sE, r = mkStats iE sE := by
  unfold extract_from_next_data at h
  split at h
  · exact absurd h (by simp)
  · split at h
    · exact absurd h (by simp)
    · unfold exceptCaught at h
      split at h
      · rename_i x r2 heq
        split at heq
        · exact absurd heq (by simp)
        · exact item_to_stats_ok _ _ (heq.trans (congrArg Except.ok h))
      · exact absurd h (by simp)

theorem sigi_success (html : String) (r : TikTokVideoStats)
    (h : extract_from_sigi_state html = .ok (some r)) : ∃ iE sE, r = mkStats iE sE := by
  unfold extract_from_sigi_state at h
  split at h
  · exact absurd h (by simp)
  · split at h
    · exact absurd h (by simp)
    · split at h
      · exact absurd h (by simp)
      · split at h
        · split at h
          · split at h
            · injection h with h2
              injection h2 with h3
              exact ⟨_, _, h3.symm⟩
            · exact absurd h (by simp)
          · exact absurd h (by simp)
        · exact absurd h (by simp)

/-! ## Claim theorems -/

/-- C1: `scrape_tiktok_video`, applied to a fetched HTML document, tries the
`__UNIVERSAL_DATA_FOR_REHYDRATION__` extractor, then the `SIGI_STATE`
extractor, then the `__NEXT_DATA__` extractor, in that fixed order, and
returns the record of the first extractor that yields one; a later
extractor's result is returned only when every earlier one yielded nothing,
and when all three yield nothing the call fails with `RuntimeError` instead
of returning a record. -/
theorem scrape_pipeline_ordered_fallback (html : String) :
    (∀ s, extract_from_universal_data html = some s →
      scrape_tiktok_video html = .ok s) ∧
    (∀ s, extract_from_universal_data html = Option.none →
      extract_from_sigi_state html = .ok (some s) →
      scrape_tiktok_video html = .ok s) ∧
    (∀ s, extract_from_universal_data html = Option.none →
      extract_from_sigi_state html = .ok Option.none →
      extract_from_next_data html = some s →
      scrape_tiktok_video html = .ok s) ∧
    (extract_from_universal_data html = Option.none →
      extract_from_sigi_state html = .ok Option.none →
      extract_from_next_data html = Option.none →
      scrape_tiktok_video html = .error .runtimeError) := by
  refine ⟨?_, ?_, ?_, ?_⟩
  · intro s h
    simp [scrape_tiktok_video, h]
  · intro s h1 h2
    simp [scrape_tiktok_video, h1, h2]
  · intro s h1 h2 h3
    simp [scrape_tiktok_video, h1, h2, h3]
  · intro h1 h2 h3
    simp [scrape_tiktok_video, h1, h2, h3]

/-- Witness for C1 at a concrete input: on an HTML document without any of
the three script blobs, every extractor yields nothing and the pipeline
fails with `RuntimeError`. -/
theorem scrape_pipeline_ordered_fallback_witness :
    extract_from_universal_data "<p>hi</p>" = Option.none ∧
    extract_from_sigi_state "<p>hi</p>" = .ok Option.none ∧
    extract_from_next_data "<p>hi</p>" = Option.none ∧
    scrape_tiktok_video "<p>hi</p>" = .error .runtimeError :=
  ⟨rfl, rfl, rfl, (scrape_pipeline_ordered_fallback "<p>hi</p>").2.2.2 rfl rfl rfl⟩

/-- C5 (as a fact about the code): the universal-data and next-data
extractors guard their navigation with `try`/`except`, but
`_extract_from_sigi_state` does not: on an HTML document whose `SIGI_STATE`
blob parses as JSON to a non-dict (here `[1]`), the fixed path cannot be
taken and, instead of returning `None` so the pipeline can fall through,
the extractor raises `AttributeError` (`[1].get` does not exist), which
escapes `scrape_tiktok_video` — contradicting that function's documented
`Raises:` section (only `requests.HTTPError` and `RuntimeError`). -/
theorem sigi_state_nondict_attribute_error :
    searchScript sigiId "<script id=\"SIGI_STATE\">[1]</script>".data = some ("[1]".data) ∧
    jsonLoads ("[1]".data) = some (.list [.int 1]) ∧
    extract_from_sigi_state "<script id=\"SIGI_STATE\">[1]</script>" = .error () ∧
    scrape_tiktok_video "<script id=\"SIGI_STATE\">[1]</script>" = .error .attributeError :=
  ⟨rfl, rfl, rfl, rfl⟩

/-- C7: `TikTokVideoStats.as_dict` returns a dictionary with exactly the six
keys `caption`, `views`, `likes`, `shares`, `comments`, `hashtags`, in that
order, each mapped to the corresponding field of the record unchanged. -/
theorem as_dict_exact_fields (s : TikTokVideoStats) :
    as_dict s = [("caption", s.caption), ("views", optIntToPy s.views),
      ("likes", optIntToPy s.likes), ("shares", optIntToPy s.shares),
      ("comments", optIntToPy s.comments), ("hashtags", tagsToPy s.hashtags)] ∧
    (as_dict s).map Prod.fst =
      ["caption", "views", "likes", "shares", "comments", "hashtags"] ∧
    lookupD (as_dict s) "caption" .none = s.caption ∧
    lookupD (as_dict s) "views" .none = optIntToPy s.views ∧
    lookupD (as_dict s) "likes" .none = optIntToPy s.likes ∧
    lookupD (as_dict s) "shares" .none = optIntToPy s.shares ∧
    lookupD (as_dict s) "comments" .none = optIntToPy s.comments ∧
    lookupD (as_dict s) "hashtags" .none = tagsToPy s.hashtags :=
  ⟨rfl, rfl, rfl, rfl, rfl, rfl, rfl, rfl⟩

/-- Witness for C7 at a concrete record. -/
theorem as_dict_exact_fields_witness :
    as_dict { caption := .str "c", views := some 1, likes := Option.none,
              shares := some 2, comments := some 3, hashtags := some ["#t"] } =
      [("caption", .str "c"), ("views", .int 1), ("likes", .none),
       ("shares", .int 2), ("comments", .int 3), ("hashtags", .list [.str "#t"])] :=
  ((as_dict_exact_fields
      { caption := .str "c", views := some 1, likes := Option.none,
        shares := some 2, comments := some 3, hashtags := some ["#t"] }).1).trans rfl

/-- C10: since Python booleans are instances of `int`, `_parse_int` maps
`True` to `1` and `False` to `0` rather than to `None`; a JSON `true`/`false`
in a count field is therefore coerced to a number instead of being reported
as unknown, as the concrete `__NEXT_DATA__` document shows. -/
theorem parse_int_bool_subclass :
    parse_int (.bool true) = some 1 ∧
    parse_int (.bool false) = some 0 ∧
    extract_from_next_data "<script id=\"__NEXT_DATA__\">\x7b\"props\":\x7b\"pageProps\":\x7b\"itemInfo\":\x7b\"itemStruct\":\x7b\"stats\":\x7b\"playCount\":true,\"diggCount\":false\x7d\x7d\x7d\x7d\x7d\x7d</script>"
      = some { caption := .none, views := some 1, likes := some 0,
               shares := Option.none, comments := Option.none, hashtags := some [] } :=
  ⟨rfl, rfl, rfl⟩

/-- C3 counterexample: `nan` and the infinities are floats, yet `_parse_int`
returns `None` for them (`int()` raises and the `try` swallows it), so the
claim that every float is coerced to its corresponding integer fails at the
concrete float input `nan`. -/
theorem parse_int_nonfinite_float_cex :
    parse_int (.float .nan) = Option.none ∧
    parse_int (.float .inf) = Option.none ∧
    parse_int (.float .neginf) = Option.none :=
  ⟨rfl, rfl, rfl⟩

/-- C3 (amended): `_parse_int` maps `None` to `None`; any integer to itself;
any finite float to its truncation toward zero; the non-finite floats `nan`,
`inf`, `-inf` to `None`; a string to its digit value exactly when removing
commas and stripping whitespace leaves a non-empty string of decimal digits,
and to `None` otherwise; and lists and dicts to `None`.  It is a total
function — it never raises. -/
theorem parse_int_spec (v : PyValue) :
    (v = .none → parse_int v = Option.none) ∧
    (∀ n, v = .int n → parse_int v = some n) ∧
    (∀ q, v = .float (.finite q) → parse_int v = some (pyTrunc q)) ∧
    ((v = .float .nan ∨ v = .float .inf ∨ v = .float .neginf) →
      parse_int v = Option.none) ∧
    (∀ s, v = .str s → (cleanedDigits s).isEmpty = false →
      (cleanedDigits s).all Char.isDigit = true →
      parse_int v = some (digitsToNat (cleanedDigits s) : Int)) ∧
    (∀ s, v = .str s →
      ((cleanedDigits s).isEmpty = true ∨ (cleanedDigits s).all Char.isDigit = false) →
      parse_int v = Option.none) ∧
    (((∃ l, v = .list l) ∨ (∃ d, v = .dict d)) → parse_int v = Option.none) := by
  refine ⟨?_, ?_, ?_, ?_, ?_, ?_, ?_⟩
  · intro h
    subst h
    rfl
  · intro n h
    subst h
    rfl
  · intro q h
    subst h
    rfl
  · rintro (h | h | h) <;> subst h <;> rfl
  · intro s h h1 h2
    subst h
    simp [parse_int, h1, h2]
  · intro s h h12
    subst h
    rcases h12 with h1 | h1 <;> simp [parse_int, h1]
  · rintro (⟨l, h⟩ | ⟨d, h⟩) <;> subst h <;> rfl

/-- Witness for C3 at concrete inputs: a comma-and-space formatted digit
string, an integer, and an integral float, each via `parse_int_spec`. -/
theorem parse_int_spec_witness :
    (cleanedDigits " 1,234 ").isEmpty = false ∧
    (cleanedDigits " 1,234 ").all Char.isDigit = true ∧
    parse_int (.str " 1,234 ") = some 1234 ∧
    parse_int (.int (-7)) = some (-7) ∧
    parse_int (.float (.finite 9)) = some (pyTrunc 9) :=
  ⟨rfl, rfl,
    ((parse_int_spec (.str " 1,234 ")).2.2.2.2.1 " 1,234 " rfl rfl rfl).trans rfl,
    (parse_int_spec (.int (-7))).2.1 (-7) rfl,
    (parse_int_spec (.float (.finite 9))).2.2.1 9 rfl⟩

/-- C4: on any caption string, `_extract_hashtags` returns the `#`-prefixed
word tokens matched by the hashtag regex (`findTags`), de-duplicated
case-insensitively while preserving order: no two entries agree after
lowercasing, the result is a subsequence of the match list (order and
original casing preserved), each retained entry is the first match with its
lowercase form, every matched tag is represented, and any `None` or
non-string caption yields `[]`. -/
theorem extract_hashtags_spec (v : PyValue) (s : String) :
    extract_hashtags (.str s) = dedupTags [] (findTags s) ∧
    (dedupTags [] (findTags s)).Pairwise (fun a b => pyLower a ≠ pyLower b) ∧
    (dedupTags [] (findTags s)).Sublist (findTags s) ∧
    (∀ u ∈ dedupTags [] (findTags s),
      (findTags s).find? (fun t => pyLower t == pyLower u) = some u) ∧
    (∀ t ∈ findTags s, ∃ u ∈ dedupTags [] (findTags s), pyLower u = pyLower t) ∧
    ((∀ w, v ≠ .str w) → extract_hashtags v = []) := by
  refine ⟨?_, dedupTags_pairwise [] _, dedupTags_sublist [] _, dedupTags_find_first [] _,
    fun t ht => dedupTags_complete [] _ t ht (by simp), ?_⟩
  · by_cases h : s == ""
    · have hs : s = "" := eq_of_beq h
      subst hs
      rfl
    · simp [extract_hashtags, h]
  · intro hns
    cases v with
    | str w => exact absurd rfl (hns w)
    | none => rfl
    | bool b => rfl
    | int n => rfl
    | float f => rfl
    | list l => rfl
    | dict d => rfl

/-- Witness for C4 at a concrete caption (case-insensitive de-duplication
keeps the first casing) and a concrete non-string caption. -/
theorem extract_hashtags_spec_witness :
    extract_hashtags (.str "Hi #Tag #tag #Two") = ["#Tag", "#Two"] ∧
    extract_hashtags (.int 3) = [] :=
  ⟨((extract_hashtags_spec (.int 3) "Hi #Tag #tag #Two").1).trans rfl,
   (extract_hashtags_spec (.int 3) "Hi #Tag #tag #Two").2.2.2.2.2
     (fun _ hw => PyValue.noConfusion hw)⟩

/-- C6: `search_videos` and `discover_trending_videos` are total (the model
returns a value on every input, mirroring the `try`/`except` blocks that
swallow every exception) and return `[]` whenever the request fails
(`Option.none` response), the status is not 200, the body fails to parse as
JSON, or digging through the parsed data raises. -/
theorem discovery_swallows_failures (count : Int) (r : HttpResp) (r2 : Option HttpResp) :
    search_videos Option.none count = [] ∧
    (r.status ≠ 200 → search_videos (some r) count = []) ∧
    (r.status = 200 → jsonLoads r.body.data = Option.none →
      search_videos (some r) count = []) ∧
    (∀ data, r.status = 200 → jsonLoads r.body.data = some data →
      buildSearchUrls data count = .error () → search_videos (some r) count = []) ∧
    discover_trending_videos Option.none r2 count = [] ∧
    (r.status ≠ 200 → discover_trending_videos (some r) Option.none count = []) ∧
    (∀ b, r.status ≠ 200 → b.status ≠ 200 →
      discover_trending_videos (some r) (some b) count = []) ∧
    (r.status = 200 → searchScript universalId r.body.data = Option.none →
      discover_trending_videos (some r) r2 count = []) ∧
    (∀ blob, r.status = 200 → searchScript universalId r.body.data = some blob →
      jsonLoads blob = Option.none → discover_trending_videos (some r) r2 count = []) := by
  refine ⟨rfl, ?_, ?_, ?_, rfl, ?_, ?_, ?_, ?_⟩
  · intro h
    simp [search_videos, h]
  · intro h hj
    simp [search_videos, h, hj]
  · intro data h hj hb
    simp [search_videos, h, hj, hb]
  · intro h
    simp [discover_trending_videos, h]
  · intro b h hb
    simp [discover_trending_videos, h, hb]
  · intro h hs
    simp [discover_trending_videos, processTrending, h, hs]
  · intro blob h hs hj
    simp [discover_trending_videos, processTrending, h, hs, hj]

/-- Witness for C6 at concrete inputs: a failed request and a pair of
non-200 responses. -/
theorem discovery_swallows_failures_witness :
    search_videos Option.none 5 = [] ∧
    discover_trending_videos (some ⟨404, "x"⟩) (some ⟨500, "y"⟩) 3 = [] :=
  ⟨(discovery_swallows_failures 5 ⟨404, "x"⟩ Option.none).1,
   (discovery_swallows_failures 3 ⟨404, "x"⟩ Option.none).2.2.2.2.2.2.1
     ⟨500, "y"⟩ (by decide) (by decide)⟩

/-- C9 counterexample: `count` is a Python `int`, and for the concrete
negative count `-1` the returned list (here of length 0) cannot have length
at most `count`, so the claim fails as stated for every-count. -/
theorem search_videos_negative_count_cex :
    search_videos Option.none (-1) = [] ∧
    ¬ (((search_videos Option.none (-1)).length : Int) ≤ -1) :=
  ⟨rfl, by decide⟩

/-- C9 (amended): for every non-negative `count`, the URL lists returned by
`discover_trending_videos`, `search_videos`, `intelligent_auto_search` and
`smart_hashtag_search` have length at most `count`; for every `count`, the
lists returned by `intelligent_auto_search` and `smart_hashtag_search`
contain no duplicate URLs and consist of first occurrences of the
accumulated results in order. -/
theorem discovery_count_bounds (count : Int) (r1 r2 resp : Option HttpResp)
    (acc1 acc2 : List String) :
    (0 ≤ count →
      ((discover_trending_videos r1 r2 count).length : Int) ≤ count ∧
      ((search_videos resp count).length : Int) ≤ count ∧
      ((intelligent_auto_search acc1 count).length : Int) ≤ count ∧
      ((smart_hashtag_search acc2 count).length : Int) ≤ count) ∧
    (intelligent_auto_search acc1 count).Pairwise (fun a b => a ≠ b) ∧
    (intelligent_auto_search acc1 count).Sublist acc1 ∧
    (∀ u ∈ intelligent_auto_search acc1 count, acc1.find? (fun t => t == u) = some u) ∧
    (smart_hashtag_search acc2 count).Pairwise (fun a b => a ≠ b) ∧
    (smart_hashtag_search acc2 count).Sublist acc2 ∧
    (∀ u ∈ smart_hashtag_search acc2 count, acc2.find? (fun t => t == u) = some u) := by
  refine ⟨?_, ?_, ?_, ?_, ?_, ?_, ?_⟩
  · intro hc
    refine ⟨?_, ?_, ?_, ?_⟩
    · rcases discover_trending_shape r1 r2 count with h | ⟨l, h⟩
      · rw [h]
        simpa using hc
      · rw [h]
        exact pySliceTo_length_le l count hc
    · rcases search_videos_shape resp count with h | ⟨l, h⟩
      · rw [h]
        simpa using hc
      · rw [h]
        exact pySliceTo_length_le l count hc
    · exact pySliceTo_length_le _ _ hc
    · exact pySliceTo_length_le _ _ hc
  · exact List.Pairwise.sublist (pySliceTo_sublist _ _) (dedupUrls_pairwise [] acc1)
  · exact (pySliceTo_sublist _ _).trans (dedupUrls_sublist [] acc1)
  · intro u hu
    exact dedupUrls_find_first [] acc1 u ((pySliceTo_sublist _ _).subset hu)
  · exact List.Pairwise.sublist (pySliceTo_sublist _ _) (dedupUrls_pairwise [] acc2)
  · exact (pySliceTo_sublist _ _).trans (dedupUrls_sublist [] acc2)
  · intro u hu
    exact dedupUrls_find_first [] acc2 u ((pySliceTo_sublist _ _).subset hu)

/-- Witness for C9 at concrete inputs: count 2 and an accumulated list with
a duplicate. -/
theorem discovery_count_bounds_witness :
    (0 : Int) ≤ 2 ∧
    ((intelligent_auto_search ["a", "b", "a"] 2).length : Int) ≤ 2 ∧
    (smart_hashtag_search ["a", "b", "a"] 2).Pairwise (fun a b => a ≠ b) :=
  ⟨by decide,
   ((discovery_count_bounds 2 Option.none Option.none Option.none
      ["a", "b", "a"] ["a", "b", "a"]).1 (by decide)).2.2.1,
   (discovery_count_bounds 2 Option.none Option.none Option.none
      ["a", "b", "a"] ["a", "b", "a"]).2.2.2.2.1⟩

/-- C2 counterexample: a `__UNIVERSAL_DATA_FOR_REHYDRATION__` document whose
blob parses and whose fixed path reaches the non-empty item dict
`\x7b"desc": "x", "stats": null\x7d`, yet the extractor returns `None`
instead of a record (`stats.get` on `None` raises into the `except`). -/
theorem universal_stats_null_cex :
    searchScript universalId "<script id=\"__UNIVERSAL_DATA_FOR_REHYDRATION__\">\x7b\"__DEFAULT_SCOPE__\":\x7b\"webapp.video-detail\":\x7b\"itemInfo\":\x7b\"itemStruct\":\x7b\"desc\":\"x\",\"stats\":null\x7d\x7d\x7d\x7d\x7d</script>".data
      = some "\x7b\"__DEFAULT_SCOPE__\":\x7b\"webapp.video-detail\":\x7b\"itemInfo\":\x7b\"itemStruct\":\x7b\"desc\":\"x\",\"stats\":null\x7d\x7d\x7d\x7d\x7d".data ∧
    jsonLoads "\x7b\"__DEFAULT_SCOPE__\":\x7b\"webapp.video-detail\":\x7b\"itemInfo\":\x7b\"itemStruct\":\x7b\"desc\":\"x\",\"stats\":null\x7d\x7d\x7d\x7d\x7d".data
      = some (.dict [("__DEFAULT_SCOPE__", .dict [("webapp.video-detail", .dict [("itemInfo",
          .dict [("itemStruct", .dict [("desc", .str "x"), ("stats", .none)])])])])]) ∧
    universal_item (.dict [("__DEFAULT_SCOPE__", .dict [("webapp.video-detail", .dict [("itemInfo",
          .dict [("itemStruct", .dict [("desc", .str "x"), ("stats", .none)])])])])])
      = .ok (.dict [("desc", .str "x"), ("stats", .none)]) ∧
    [("desc", PyValue.str "x"), ("stats", PyValue.none)] ≠ ([] : List (String × PyValue)) ∧
    extract_from_universal_data "<script id=\"__UNIVERSAL_DATA_FOR_REHYDRATION__\">\x7b\"__DEFAULT_SCOPE__\":\x7b\"webapp.video-detail\":\x7b\"itemInfo\":\x7b\"itemStruct\":\x7b\"desc\":\"x\",\"stats\":null\x7d\x7d\x7d\x7d\x7d</script>"
      = Option.none :=
  ⟨rfl, rfl, rfl, by simp, rfl⟩

/-- C2 (amended): whenever a format's blob is located and parses, its fixed
path reaches a non-empty item dict, and the item's `stats` entry is usable —
a dict for the universal/next formats (absence defaults to `\x7b\x7d`), and
for SIGI a dict or a falsy value (replaced by `\x7b\x7d`) — the extractor
returns the record whose caption is the item's `desc`, whose four counts are
`_parse_int` of the stats `playCount`/`diggCount`/`shareCount`/`commentCount`,
and whose hashtags are extracted from that same `desc`.  The paths are
`__DEFAULT_SCOPE__ → webapp.video-detail → itemInfo → itemStruct`
(universal), the first value of `ItemModule` (SIGI), and
`props → pageProps → itemInfo → itemStruct` (next). -/
theorem extractor_field_mapping (html : String) (blob : List Char)
    (data raw first : PyValue) (itemE statsE restItems : List (String × PyValue))
    (k : String) :
    (searchScript universalId html.data = some blob →
      jsonLoads blob = some data →
      universal_item data = .ok (.dict itemE) →
      itemE ≠ [] →
      lookupD itemE "stats" (.dict []) = .dict statsE →
      extract_from_universal_data html = some
        { caption := lookupD itemE "desc" .none,
          views := parse_int (lookupD statsE "playCount" .none),
          likes := parse_int (lookupD statsE "diggCount" .none),
          shares := parse_int (lookupD statsE "shareCount" .none),
          comments := parse_int (lookupD statsE "commentCount" .none),
          hashtags := some (extract_hashtags (lookupD itemE "desc" .none)) }) ∧
    (searchScript nextId html.data = some blob →
      jsonLoads blob = some data →
      next_item data = .ok (.dict itemE) →
      itemE ≠ [] →
      lookupD itemE "stats" (.dict []) = .dict statsE →
      extract_from_next_data html = some
        { caption := lookupD itemE "desc" .none,
          views := parse_int (lookupD statsE "playCount" .none),
          likes := parse_int (lookupD statsE "diggCount" .none),
          shares := parse_int (lookupD statsE "shareCount" .none),
          comments := parse_int (lookupD statsE "commentCount" .none),
          hashtags := some (extract_hashtags (lookupD itemE "desc" .none)) }) ∧
    (searchScript sigiId html.data = some blob →
      jsonLoads blob = some data →
      pyGet data "ItemModule" = .ok raw →
      (if pyTruthy raw then raw else PyValue.dict []) = .dict ((k, first) :: restItems) →
      first = .dict itemE →
      (if pyTruthy (lookupD itemE "stats" .none) then lookupD itemE "stats" .none
       else PyValue.dict []) = .dict statsE →
      extract_from_sigi_state html = .ok (some
        { caption := lookupD itemE "desc" .none,
          views := parse_int (lookupD statsE "playCount" .none),
          likes := parse_int (lookupD statsE "diggCount" .none),
          shares := parse_int (lookupD statsE "shareCount" .none),
          comments := parse_int (lookupD statsE "commentCount" .none),
          hashtags := some (extract_hashtags (lookupD itemE "desc" .none)) })) := by
  refine ⟨?_, ?_, ?_⟩
  · intro h1 h2 h3 h4 h5
    cases itemE with
    | nil => exact absurd rfl h4
    | cons e rest =>
      simp only [extract_from_universal_data, h1, h2, h3, exceptCaught, item_to_stats,
        h5, mkStats]
  · intro h1 h2 h3 h4 h5
    cases itemE with
    | nil => exact absurd rfl h4
    | cons e rest =>
      simp only [extract_from_next_data, h1, h2, h3, exceptCaught, item_to_stats,
        h5, mkStats]
  · intro g1 g2 g3 g4 g5 g6
    subst g5
    simp only [extract_from_sigi_state, g1, g2, g3, g4, g6, mkStats]

set_option maxRecDepth 8192 in
/-- Witness for C2 at a concrete `__NEXT_DATA__` document with a full stats
dict. -/
theorem extractor_field_mapping_witness :
    extract_from_next_data "<script id=\"__NEXT_DATA__\">\x7b\"props\":\x7b\"pageProps\":\x7b\"itemInfo\":\x7b\"itemStruct\":\x7b\"desc\":\"Go #Fun #fun now\",\"stats\":\x7b\"playCount\":10,\"diggCount\":2,\"shareCount\":3,\"commentCount\":\"4\"\x7d\x7d\x7d\x7d\x7d\x7d</script>"
      = some { caption := .str "Go #Fun #fun now", views := some 10, likes := some 2,
               shares := some 3, comments := some 4, hashtags := some ["#Fun"] } :=
  ((extractor_field_mapping
      "<script id=\"__NEXT_DATA__\">\x7b\"props\":\x7b\"pageProps\":\x7b\"itemInfo\":\x7b\"itemStruct\":\x7b\"desc\":\"Go #Fun #fun now\",\"stats\":\x7b\"playCount\":10,\"diggCount\":2,\"shareCount\":3,\"commentCount\":\"4\"\x7d\x7d\x7d\x7d\x7d\x7d</script>"
      "\x7b\"props\":\x7b\"pageProps\":\x7b\"itemInfo\":\x7b\"itemStruct\":\x7b\"desc\":\"Go #Fun #fun now\",\"stats\":\x7b\"playCount\":10,\"diggCount\":2,\"shareCount\":3,\"commentCount\":\"4\"\x7d\x7d\x7d\x7d\x7d\x7d".data
      (.dict [("props", .dict [("pageProps", .dict [("itemInfo", .dict [("itemStruct",
        .dict [("desc", .str "Go #Fun #fun now"), ("stats", .dict [("playCount", .int 10),
          ("diggCount", .int 2), ("shareCount", .int 3), ("commentCount", .str "4")])])])])])])
      PyValue.none PyValue.none
      [("desc", .str "Go #Fun #fun now"), ("stats", .dict [("playCount", .int 10),
        ("diggCount", .int 2), ("shareCount", .int 3), ("commentCount", .str "4")])]
      [("playCount", .int 10), ("diggCount", .int 2), ("shareCount", .int 3),
        ("commentCount", .str "4")]
      [] "").2.1 rfl rfl rfl (by simp) rfl).trans rfl

/-- C8: every record returned by any of the three extractors has a `hashtags`
field that is `some` list — never `None` — equal to the hashtag extraction
applied to that record's caption; in particular a missing `desc` (caption
`None`) gives the empty list. -/
theorem extractor_hashtags_invariant (html : String) (r : TikTokVideoStats) :
    (extract_from_universal_data html = some r →
      r.hashtags = some (extract_hashtags r.caption) ∧
      (r.caption = PyValue.none → r.hashtags = some [])) ∧
    (extract_from_sigi_state html = .ok (some r) →
      r.hashtags = some (extract_hashtags r.caption) ∧
      (r.caption = PyValue.none → r.hashtags = some [])) ∧
    (extract_from_next_data html = some r →
      r.hashtags = some (extract_hashtags r.caption) ∧
      (r.caption = PyValue.none → r.hashtags = some [])) := by
  refine ⟨?_, ?_, ?_⟩
  · intro h
    obtain ⟨iE, sE, rfl⟩ := universal_success html r h
    refine ⟨rfl, ?_⟩
    intro hc
    have hc2 : lookupD iE "desc" PyValue.none = PyValue.none := hc
    show some (extract_hashtags (lookupD iE "desc" PyValue.none)) = some []
    rw [hc2]
    rfl
  · intro h
    obtain ⟨iE, sE, rfl⟩ := sigi_success html r h
    refine ⟨rfl, ?_⟩
    intro hc
    have hc2 : lookupD iE "desc" PyValue.none = PyValue.none := hc
    show some (extract_hashtags (lookupD iE "desc" PyValue.none)) = some []
    rw [hc2]
    rfl
  · intro h
    obtain ⟨iE, sE, rfl⟩ := next_success html r h
    refine ⟨rfl, ?_⟩
    intro hc
    have hc2 : lookupD iE "desc" PyValue.none = PyValue.none := hc
    show some (extract_hashtags (lookupD iE "desc" PyValue.none)) = some []
    rw [hc2]
    rfl

set_option maxRecDepth 8192 in
/-- Witness for C8 at a concrete universal-data document. -/
theorem extractor_hashtags_invariant_witness :
    extract_from_universal_data "<script id=\"__UNIVERSAL_DATA_FOR_REHYDRATION__\">\x7b\"__DEFAULT_SCOPE__\":\x7b\"webapp.video-detail\":\x7b\"itemInfo\":\x7b\"itemStruct\":\x7b\"desc\":\"#Go #go\",\"stats\":\x7b\"playCount\":1\x7d\x7d\x7d\x7d\x7d\x7d</script>"
      = some { caption := .str "#Go #go", views := some 1, likes := Option.none,
               shares := Option.none, comments := Option.none, hashtags := some ["#Go"] } ∧
    (some ["#Go"] : Option (List String)) =
      some (extract_hashtags (.str "#Go #go")) :=
  ⟨rfl,
   ((extractor_hashtags_invariant
      "<script id=\"__UNIVERSAL_DATA_FOR_REHYDRATION__\">\x7b\"__DEFAULT_SCOPE__\":\x7b\"webapp.video-detail\":\x7b\"itemInfo\":\x7b\"itemStruct\":\x7b\"desc\":\"#Go #go\",\"stats\":\x7b\"playCount\":1\x7d\x7d\x7d\x7d\x7d\x7d</script>"
      { caption := .str "#Go #go", views := some 1, likes := Option.none,
        shares := Option.none, comments := Option.none, hashtags := some ["#Go"] }).1
      rfl).1⟩

end Scraper
